import Mathlib

/-!
Verification development for `examples/simple/simple.py`: a script that
trains a small feed-forward network on MNIST with TensorFlow / Keras.

The script is shallowly embedded below.  Images are lists of uint8 pixel
values (modelled as `Nat`, in range `[0,255]` where relevant); float
arithmetic of the framework is modelled over `ℚ` (and `ℝ` for softmax).
`tf.data` pipelines are lazy graphs, so a pipeline is modelled as its
underlying example list together with the ordered list of configured
transformation ops.
-/

namespace Simple

/-- One labelled example as delivered by `tfds.load(..., as_supervised=True)`:
a raw image (list of uint8 pixel values) and an integer class label. -/
abbrev RawEx : Type := List Nat × Nat

/-- `HyperParams = namedtuple("HyperParams", ["batch_size", "epochs", "hidden_layers"])`. -/
structure HyperParams where
  batch_size : Nat
  epochs : Nat
  hidden_layers : List Nat
deriving DecidableEq, Repr

/-- The elementwise action of `tf.cast(image, tf.float32) / 255.` on one
uint8 pixel value. -/
def castDiv255 (v : Nat) : ℚ := (v : ℚ) / 255

/-- `normalize_img(image, label)`: casts the image to float and divides by
255 (elementwise), passing the label through. -/
def normalize_img (image : List Nat) (label : Nat) : List ℚ × Nat :=
  (image.map castDiv255, label)

/-- One configured transformation on a `tf.data` pipeline.  The pipelines in
`prepare_data` are lazy graphs: each method call appends a node.
`map_normalize` is `.map(normalize_img, num_parallel_calls=tf.data.AUTOTUNE)`. -/
inductive PipelineOp where
  | map_normalize
  | cache
  | shuffle (buffer_size : Nat)
  | batch (batch_size : Nat)
  | prefetch
deriving DecidableEq, Repr

/-- A `tf.data` pipeline: the underlying split of raw examples plus the
ordered list of transformation ops configured on it. -/
structure Pipeline where
  data : List RawEx
  ops : List PipelineOp

def Pipeline.mapNormalize (p : Pipeline) : Pipeline :=
  { p with ops := p.ops ++ [PipelineOp.map_normalize] }

def Pipeline.cacheOp (p : Pipeline) : Pipeline :=
  { p with ops := p.ops ++ [PipelineOp.cache] }

def Pipeline.shuffleOp (p : Pipeline) (buffer_size : Nat) : Pipeline :=
  { p with ops := p.ops ++ [PipelineOp.shuffle buffer_size] }

def Pipeline.batchOp (p : Pipeline) (batch_size : Nat) : Pipeline :=
  { p with ops := p.ops ++ [PipelineOp.batch batch_size] }

def Pipeline.prefetchOp (p : Pipeline) : Pipeline :=
  { p with ops := p.ops ++ [PipelineOp.prefetch] }

/-- Does the pipeline configure a `shuffle` op? -/
def hasShuffle (ops : List PipelineOp) : Bool :=
  ops.any fun o => match o with | PipelineOp.shuffle _ => true | _ => false

/-- Does the pipeline configure a `batch` op? -/
def hasBatch (ops : List PipelineOp) : Bool :=
  ops.any fun o => match o with | PipelineOp.batch _ => true | _ => false

/-- Does the pipeline configure a `cache` op? -/
def hasCache (ops : List PipelineOp) : Bool :=
  ops.any fun o => match o with | PipelineOp.cache => true | _ => false

/-- Does the pipeline configure a `prefetch` op? -/
def hasPrefetch (ops : List PipelineOp) : Bool :=
  ops.any fun o => match o with | PipelineOp.prefetch => true | _ => false

/-- The `info` object returned by `tfds.load(..., with_info=True)`, restricted
to the fields the script reads: `info.splits['train'].num_examples` and
`info.features["image"].shape`. -/
structure DatasetInfo where
  train_num_examples : Nat
  image_shape : List Nat
deriving DecidableEq, Repr

/-- The boundary index of the TFDS percent slices `train[:90%]` / `train[90%:]`
on a source training split of `n` examples: TFDS rounds the percent boundary
to the closest integer. -/
def splitBoundary (n : Nat) : Nat := (90 * n + 50) / 100

/-- `tfds.load('mnist', split=['train[:90%]', 'train[90%:]', 'test'], ...)`,
parameterised by the stored source splits of the dataset.  Returns the three
sliced splits as fresh pipelines together with the info object. -/
def tfds_load (srcTrain srcTest : List RawEx) (image_shape : List Nat) :
    (Pipeline × Pipeline × Pipeline) × DatasetInfo :=
  let k := splitBoundary srcTrain.length
  ((⟨srcTrain.take k, []⟩, ⟨srcTrain.drop k, []⟩, ⟨srcTest, []⟩),
    ⟨srcTrain.length, image_shape⟩)

/-- `prepare_data(hp)`: loads MNIST, slices it into train/dev/test, and
configures each split's pipeline exactly in the source's order.  Returns the
4-tuple `(train, dev, test, info)`.  The stored dataset (`srcTrain`,
`srcTest`, `image_shape`) is a parameter of the embedding. -/
def prepare_data (hp : HyperParams) (srcTrain srcTest : List RawEx)
    (image_shape : List Nat) :
    Pipeline × Pipeline × Pipeline × DatasetInfo :=
  let loaded := tfds_load srcTrain srcTest image_shape
  let train := loaded.1.1
  let dev := loaded.1.2.1
  let test := loaded.1.2.2
  let info := loaded.2
  let train := train.mapNormalize
  let train := train.cacheOp
  let train := train.shuffleOp info.train_num_examples
  let train := train.batchOp hp.batch_size
  let train := train.prefetchOp
  let dev := dev.mapNormalize
  let dev := dev.batchOp hp.batch_size
  let dev := dev.cacheOp
  let dev := dev.prefetchOp
  let test := test.mapNormalize
  let test := test.batchOp hp.batch_size
  let test := test.cacheOp
  let test := test.prefetchOp
  (train, dev, test, info)

/-- The arity of the declared return annotation of `prepare_data`,
`Tuple[Any, Any, Any]`. -/
def prepare_data_annotation_arity : Nat := 3

inductive Activation where
  | relu
  | softmax
deriving DecidableEq, Repr

inductive Regularizer where
  | l2
  | noReg
deriving DecidableEq, Repr

/-- One Keras layer as configured by `main`.  `dense units act reg` is
`tf.keras.layers.Dense(units, activation=act, kernel_regularizer=reg)`;
the final dense layer passes no regularizer, hence `noReg`. -/
inductive Layer where
  | flatten
  | dense (units : Nat) (activation : Activation) (kernel_regularizer : Regularizer)
  | dropout (rate : ℚ)
deriving DecidableEq, Repr

/-- The Keras functional-API model built by `main`: the input tensor's shape
(`info.features["image"].shape`) together with the chain of layers applied to
it, in application order. -/
structure Model where
  input_shape : List Nat
  layers : List Layer
deriving DecidableEq, Repr

/-- The model-construction block of `main`, line by line: starts from the
input tensor, applies `Flatten`, then one `Dense(hidden_size, relu, l2)` per
entry of `hp.hidden_layers` via the `for` loop (a left fold), then
`Dropout(0.5)`, then `Dense(10, softmax)`. -/
def build_model (hp : HyperParams) (image_shape : List Nat) : Model :=
  let hidden : List Layer := [Layer.flatten]
  let hidden := hp.hidden_layers.foldl
    (fun acc hidden_size =>
      acc ++ [Layer.dense hidden_size Activation.relu Regularizer.l2]) hidden
  let hidden := hidden ++ [Layer.dropout (1 / 2)]
  let outputs := hidden ++ [Layer.dense 10 Activation.softmax Regularizer.noReg]
  { input_shape := image_shape, layers := outputs }

/-- The number of units of a dense layer (`none` for other layers). -/
def denseUnits : Layer → Option Nat
  | Layer.dense units _ _ => some units
  | _ => none

/-- The model's output layer: the last layer applied. -/
def output_layer (m : Model) : Option Layer := m.layers.getLast?

/-- Softmax over the 10 output logits, in exact real arithmetic. -/
noncomputable def softmax {n : Nat} (x : Fin n → ℝ) (i : Fin n) : ℝ :=
  Real.exp (x i) / ∑ j, Real.exp (x j)

/-- The `tf.keras.callbacks.EarlyStopping` configuration. -/
structure EarlyStopping where
  monitor : String
  patience : Nat
deriving DecidableEq, Repr

/-- `stop_early = tf.keras.callbacks.EarlyStopping(monitor='val_loss', patience=5)`. -/
def stop_early : EarlyStopping := ⟨"val_loss", 5⟩

/-- The `callbacks=[stop_early]` argument of `model.fit`. -/
def fit_callbacks : List EarlyStopping := [stop_early]

/-- Modelled from the spec: the early-stopping behaviour of the framework's
built-in fitting loop (the loop itself lives in the external framework, not in
this repository) — "halting training once a monitored validation metric stops
improving for a set number of epochs".  Given the patience, the remaining
per-epoch validation losses, the best loss seen so far and the count of
consecutive epochs without improvement, returns how many further epochs run:
each epoch that improves on the best resets the count, and the loop stops at
the end of the first epoch that brings the count up to the patience. -/
def early_stop_epochs (patience : Nat) : List ℚ → Option ℚ → Nat → Nat
  | [], _, _ => 0
  | l :: rest, best, wait =>
    match best with
    | none => 1 + early_stop_epochs patience rest (some l) 0
    | some b =>
      if l < b then
        1 + early_stop_epochs patience rest (some l) 0
      else if patience ≤ wait + 1 then
        1
      else
        1 + early_stop_epochs patience rest (some b) (wait + 1)

/-- `model.fit(train, epochs=hp.epochs, validation_data=dev,
callbacks=[stop_early])`, abstracted to the number of epochs that actually
run: at most `hp.epochs`, observing the per-epoch validation losses
`val_losses`, stopped early by `stop_early`'s rule. -/
def fit (hp : HyperParams) (val_losses : List ℚ) : Nat :=
  early_stop_epochs stop_early.patience (val_losses.take hp.epochs) none 0

/-- `main(hp)`, abstracted to the value it prints: prepares the data, builds
the model from the info object's image shape, trains (`fit`), evaluates the
trained model on the test pipeline, and prints the single line
`print("test loss, test acc:", test_loss, test_acc)`.  The dataset and the
framework's numeric results (`val_losses`, `evaluate`) are parameters of the
embedding. -/
def main (hp : HyperParams) (srcTrain srcTest : List RawEx)
    (image_shape : List Nat) (val_losses : List ℚ)
    (evaluate : Model → Nat → Pipeline → ℚ × ℚ) : List (String × ℚ × ℚ) :=
  let prepared := prepare_data hp srcTrain srcTest image_shape
  let test := prepared.2.2.1
  let info := prepared.2.2.2
  let model := build_model hp info.image_shape
  let epochs_ran := fit hp val_losses
  let result := evaluate model epochs_ran test
  [("test loss, test acc:", result.1, result.2)]

/-- The hardcoded hyperparameters of the `__main__` block:
`hp = HyperParams(100, 20, [100, 100])`. -/
def script_hp : HyperParams := ⟨100, 20, [100, 100]⟩

/-- The script's entry point: it parses no command-line arguments (`argv` is
never read) and calls `main` on the hardcoded hyperparameters. -/
def script_entry (_argv : List String) (srcTrain srcTest : List RawEx)
    (image_shape : List Nat) (val_losses : List ℚ)
    (evaluate : Model → Nat → Pipeline → ℚ × ℚ) : List (String × ℚ × ℚ) :=
  main script_hp srcTrain srcTest image_shape val_losses evaluate

end Simple

namespace Simple

/-- C1: `normalize_img` divides each uint8 pixel value by 255, so 255 maps
to 1, 0 maps to 0, and every pixel value in `[0,255]` lands in `[0,1]`;
the image component of `normalize_img` is exactly the elementwise map. -/
theorem normalize_img_pixel_range (v : Nat) (hv : v ≤ 255) :
    (∀ image label, (normalize_img image label).1 = image.map castDiv255) ∧
    castDiv255 v = (v : ℚ) / 255 ∧
    castDiv255 255 = 1 ∧
    castDiv255 0 = 0 ∧
    0 ≤ castDiv255 v ∧ castDiv255 v ≤ 1 := by
  refine ⟨fun image label => rfl, rfl, by norm_num [castDiv255], by norm_num [castDiv255], ?_, ?_⟩
  · exact div_nonneg (by positivity) (by norm_num)
  · rw [castDiv255, div_le_one (by norm_num)]
    exact_mod_cast hv

theorem normalize_img_pixel_range_witness :
    (200 : Nat) ≤ 255 ∧
    ((∀ image label, (normalize_img image label).1 = image.map castDiv255) ∧
      castDiv255 200 = (200 : ℚ) / 255 ∧
      castDiv255 255 = 1 ∧
      castDiv255 0 = 0 ∧
      0 ≤ castDiv255 200 ∧ castDiv255 200 ≤ 1) :=
  ⟨by decide, normalize_img_pixel_range 200 (by decide)⟩

/-- C9: `normalize_img` passes the label component through unchanged; only
the image component is transformed. -/
theorem normalize_img_label_unchanged (image : List Nat) (label : Nat) :
    (normalize_img image label).2 = label := rfl

/-- C7: constructing a `HyperParams` record from `(b, e, h)` yields a record
whose three fields are exactly `b`, `e`, `h`; a `namedtuple` is immutable, and
the embedding as a `structure` with no mutating operation reflects that. -/
theorem hyperparams_construction_preserves_fields
    (b e : Nat) (h : List Nat) :
    (HyperParams.mk b e h).batch_size = b ∧
    (HyperParams.mk b e h).epochs = e ∧
    (HyperParams.mk b e h).hidden_layers = h :=
  ⟨rfl, rfl, rfl⟩

/-- C3: `prepare_data` slices the source training set at the 90% boundary:
the train split is its first 90% (`take`), the dev split the remaining 10%
(`drop`), and the test split is the separate held-out test set; train and dev
concatenate back to the full source training set (so they are disjoint
segments whose sizes sum to the whole). -/
theorem prepare_data_split_partition (hp : HyperParams)
    (srcTrain srcTest : List RawEx) (image_shape : List Nat) :
    (prepare_data hp srcTrain srcTest image_shape).1.data
        = srcTrain.take (splitBoundary srcTrain.length) ∧
    (prepare_data hp srcTrain srcTest image_shape).2.1.data
        = srcTrain.drop (splitBoundary srcTrain.length) ∧
    (prepare_data hp srcTrain srcTest image_shape).2.2.1.data = srcTest ∧
    (prepare_data hp srcTrain srcTest image_shape).1.data
        ++ (prepare_data hp srcTrain srcTest image_shape).2.1.data = srcTrain ∧
    (prepare_data hp srcTrain srcTest image_shape).1.data.length
        + (prepare_data hp srcTrain srcTest image_shape).2.1.data.length
        = srcTrain.length := by
  refine ⟨rfl, rfl, rfl, ?_, ?_⟩
  · exact List.take_append_drop _ _
  · show (srcTrain.take (splitBoundary srcTrain.length)).length
        + (srcTrain.drop (splitBoundary srcTrain.length)).length = srcTrain.length
    rw [List.length_take, List.length_drop]
    omega

/-- C4 counterexample: the claim says shuffling is configured on each of the
three splits, but on a concrete run the dev split's pipeline has no shuffle
op. -/
theorem prepare_data_dev_not_shuffled :
    ¬ (hasShuffle
        ((prepare_data ⟨100, 20, [100, 100]⟩
          [([0, 1], 0), ([2, 3], 1)] [([4, 5], 2)] [28, 28, 1]).2.1.ops)
        = true) := by
  decide

/-- C4 (amended): `prepare_data` configures batching, caching and prefetching
(and the normalization map) on all three splits' pipelines, but shuffling only
on the train split; the dev and test pipelines are not shuffled. -/
theorem prepare_data_per_split_ops (hp : HyperParams)
    (srcTrain srcTest : List RawEx) (image_shape : List Nat) :
    (hasBatch (prepare_data hp srcTrain srcTest image_shape).1.ops = true ∧
      hasCache (prepare_data hp srcTrain srcTest image_shape).1.ops = true ∧
      hasPrefetch (prepare_data hp srcTrain srcTest image_shape).1.ops = true ∧
      hasShuffle (prepare_data hp srcTrain srcTest image_shape).1.ops = true) ∧
    (hasBatch (prepare_data hp srcTrain srcTest image_shape).2.1.ops = true ∧
      hasCache (prepare_data hp srcTrain srcTest image_shape).2.1.ops = true ∧
      hasPrefetch (prepare_data hp srcTrain srcTest image_shape).2.1.ops = true ∧
      hasShuffle (prepare_data hp srcTrain srcTest image_shape).2.1.ops = false) ∧
    (hasBatch (prepare_data hp srcTrain srcTest image_shape).2.2.1.ops = true ∧
      hasCache (prepare_data hp srcTrain srcTest image_shape).2.2.1.ops = true ∧
      hasPrefetch (prepare_data hp srcTrain srcTest image_shape).2.2.1.ops = true ∧
      hasShuffle (prepare_data hp srcTrain srcTest image_shape).2.2.1.ops = false) := by
  simp [prepare_data, tfds_load, Pipeline.mapNormalize, Pipeline.cacheOp,
    Pipeline.shuffleOp, Pipeline.batchOp, Pipeline.prefetchOp,
    hasBatch, hasCache, hasPrefetch, hasShuffle]

/-- C10: `prepare_data` returns a 4-tuple whose fourth component is the
dataset info object produced by `tfds.load` (carrying, e.g., the source
training set's example count), even though its declared return annotation
`Tuple[Any, Any, Any]` has arity 3, not 4. -/
theorem prepare_data_returns_four_tuple (hp : HyperParams)
    (srcTrain srcTest : List RawEx) (image_shape : List Nat) :
    (prepare_data hp srcTrain srcTest image_shape).2.2.2
        = (tfds_load srcTrain srcTest image_shape).2 ∧
    (prepare_data hp srcTrain srcTest image_shape).2.2.2.train_num_examples
        = srcTrain.length ∧
    prepare_data_annotation_arity ≠ 4 := by
  refine ⟨rfl, rfl, by decide⟩

/-- Helper: a left fold that appends one element per entry is an append of a
map. -/
theorem foldl_append_singleton {α β : Type} (f : α → β) :
    ∀ (l : List α) (init : List β),
      l.foldl (fun acc a => acc ++ [f a]) init = init ++ l.map f := by
  intro l
  induction l with
  | nil => intro init; simp
  | cons a t ih =>
    intro init
    simp [List.foldl_cons, ih]

/-- Helper: the last element of `l ++ [a]` is `a`. -/
theorem getLast?_append_singleton {α : Type} (l : List α) (a : α) :
    (l ++ [a]).getLast? = some a := by
  induction l with
  | nil => rfl
  | cons b t ih =>
    rw [List.cons_append, List.getLast?_cons, ih]
    rfl

/-- C2: the model built by `main` applies, in order: a flatten layer, then
one ReLU dense layer with L2 kernel regularization per entry of
`hp.hidden_layers` (width equal to that entry, in sequence order), then a
dropout layer with rate 0.5, then a final dense layer with 10 units and
softmax activation. -/
theorem build_model_layer_structure (hp : HyperParams) (image_shape : List Nat) :
    (build_model hp image_shape).layers
      = Layer.flatten
          :: (hp.hidden_layers.map
                (fun hidden_size =>
                  Layer.dense hidden_size Activation.relu Regularizer.l2)
              ++ [Layer.dropout (1 / 2),
                  Layer.dense 10 Activation.softmax Regularizer.noReg]) := by
  simp [build_model, foldl_append_singleton]

/-- C6: the constructed model's output layer is the softmax dense layer with
exactly 10 units, and for every input logit vector the 10 softmax outputs are
non-negative and sum to 1 (a probability distribution over the 10 classes). -/
theorem model_output_softmax_distribution (hp : HyperParams)
    (image_shape : List Nat) (x : Fin 10 → ℝ) :
    output_layer (build_model hp image_shape)
      = some (Layer.dense 10 Activation.softmax Regularizer.noReg) ∧
    (output_layer (build_model hp image_shape)).bind denseUnits = some 10 ∧
    (∀ i, 0 ≤ softmax x i) ∧
    (∑ i, softmax x i) = 1 := by
  have hlist : (build_model hp image_shape).layers
      = Layer.flatten
          :: (hp.hidden_layers.map
                (fun hidden_size =>
                  Layer.dense hidden_size Activation.relu Regularizer.l2)
              ++ [Layer.dropout (1 / 2),
                  Layer.dense 10 Activation.softmax Regularizer.noReg]) := by
    simp [build_model, foldl_append_singleton]
  have hshape : Layer.flatten
        :: (hp.hidden_layers.map
              (fun hidden_size =>
                Layer.dense hidden_size Activation.relu Regularizer.l2)
            ++ [Layer.dropout (1 / 2),
                Layer.dense 10 Activation.softmax Regularizer.noReg])
      = (Layer.flatten
          :: (hp.hidden_layers.map
                (fun hidden_size =>
                  Layer.dense hidden_size Activation.relu Regularizer.l2)
              ++ [Layer.dropout (1 / 2)]))
        ++ [Layer.dense 10 Activation.softmax Regularizer.noReg] := by
    simp
  have hlast : output_layer (build_model hp image_shape)
      = some (Layer.dense 10 Activation.softmax Regularizer.noReg) := by
    rw [output_layer, hlist, hshape, getLast?_append_singleton]
  have hpos : (0 : ℝ) < ∑ j, Real.exp (x j) :=
    Finset.sum_pos (fun j _ => Real.exp_pos (x j)) Finset.univ_nonempty
  refine ⟨hlast, by rw [hlast]; rfl, ?_, ?_⟩
  · intro i
    exact div_nonneg (Real.exp_pos (x i)).le hpos.le
  · simp only [softmax]
    rw [← Finset.sum_div, div_self hpos.ne']

/-- Helper: the early-stopping loop never runs more epochs than there are
observations. -/
theorem early_stop_epochs_le_length (patience : Nat) :
    ∀ (losses : List ℚ) (best : Option ℚ) (wait : Nat),
      early_stop_epochs patience losses best wait ≤ losses.length := by
  intro losses
  induction losses with
  | nil => intro best wait; simp [early_stop_epochs]
  | cons l rest ih =>
    intro best wait
    cases best with
    | none =>
      simp only [early_stop_epochs, List.length_cons]
      have := ih (some l) 0
      omega
    | some b =>
      simp only [early_stop_epochs, List.length_cons]
      by_cases hb : l < b
      · rw [if_pos hb]
        have := ih (some l) 0
        omega
      · rw [if_neg hb]
        by_cases hw : patience ≤ wait + 1
        · rw [if_pos hw]
          omega
        · rw [if_neg hw]
          have := ih (some b) (wait + 1)
          omega

/-- C5: training uses a single early-stopping callback monitoring `val_loss`
with patience 5; the fitting loop runs at most `hp.epochs` epochs, and once
the validation loss fails to improve on the best value for 5 consecutive
epochs, training halts right there (here: best is `l0` from epoch 1, epochs
2-6 do not improve, so exactly 6 epochs run no matter how many more were
allowed). -/
theorem fit_early_stopping (hp : HyperParams)
    (l0 l1 l2 l3 l4 l5 : ℚ) (rest : List ℚ)
    (h1 : l0 ≤ l1) (h2 : l0 ≤ l2) (h3 : l0 ≤ l3) (h4 : l0 ≤ l4) (h5 : l0 ≤ l5)
    (he : 6 ≤ hp.epochs) :
    fit_callbacks = [EarlyStopping.mk "val_loss" 5] ∧
    fit_callbacks.length = 1 ∧
    (∀ losses : List ℚ, fit hp losses ≤ hp.epochs) ∧
    fit hp (l0 :: l1 :: l2 :: l3 :: l4 :: l5 :: rest) = 6 := by
  refine ⟨rfl, rfl, ?_, ?_⟩
  · intro losses
    refine le_trans (early_stop_epochs_le_length _ _ _ _) ?_
    rw [List.length_take]
    omega
  · obtain ⟨k, hk⟩ := Nat.exists_eq_add_of_le he
    have htake : (l0 :: l1 :: l2 :: l3 :: l4 :: l5 :: rest).take (k + 6)
        = l0 :: l1 :: l2 :: l3 :: l4 :: l5 :: rest.take k := rfl
    have n1 : ¬ (l1 < l0) := not_lt.mpr h1
    have n2 : ¬ (l2 < l0) := not_lt.mpr h2
    have n3 : ¬ (l3 < l0) := not_lt.mpr h3
    have n4 : ¬ (l4 < l0) := not_lt.mpr h4
    have n5 : ¬ (l5 < l0) := not_lt.mpr h5
    rw [fit, hk, Nat.add_comm 6 k]
    rw [show stop_early.patience = 5 from rfl, htake]
    simp [early_stop_epochs, n1, n2, n3, n4, n5]

theorem fit_early_stopping_witness :
    ((1 : ℚ) ≤ 1 ∧ (1 : ℚ) ≤ 1 ∧ (1 : ℚ) ≤ 1 ∧ (1 : ℚ) ≤ 1 ∧ (1 : ℚ) ≤ 1 ∧
      6 ≤ (HyperParams.mk 100 20 [100, 100]).epochs) ∧
    (fit_callbacks = [EarlyStopping.mk "val_loss" 5] ∧
      fit_callbacks.length = 1 ∧
      (∀ losses : List ℚ,
        fit (HyperParams.mk 100 20 [100, 100]) losses
          ≤ (HyperParams.mk 100 20 [100, 100]).epochs) ∧
      fit (HyperParams.mk 100 20 [100, 100]) [1, 1, 1, 1, 1, 1, 2, 3] = 6) :=
  ⟨⟨le_refl 1, le_refl 1, le_refl 1, le_refl 1, le_refl 1, by norm_num⟩,
    fit_early_stopping (HyperParams.mk 100 20 [100, 100]) 1 1 1 1 1 1 [2, 3]
      le_rfl le_rfl le_rfl le_rfl le_rfl (by norm_num)⟩

/-- C8: `main` evaluates the trained model on the test pipeline and prints
exactly one line, carrying the resulting test loss and test accuracy; the
entry point reads no command-line arguments and runs `main` on the hardcoded
hyperparameters `HyperParams(100, 20, [100, 100])`. -/
theorem main_prints_test_evaluation (hp : HyperParams)
    (srcTrain srcTest : List RawEx) (image_shape : List Nat)
    (val_losses : List ℚ) (evaluate : Model → Nat → Pipeline → ℚ × ℚ)
    (argv argv2 : List String) :
    main hp srcTrain srcTest image_shape val_losses evaluate
      = [("test loss, test acc:",
          (evaluate (build_model hp image_shape) (fit hp val_losses)
            (prepare_data hp srcTrain srcTest image_shape).2.2.1).1,
          (evaluate (build_model hp image_shape) (fit hp val_losses)
            (prepare_data hp srcTrain srcTest image_shape).2.2.1).2)] ∧
    (main hp srcTrain srcTest image_shape val_losses evaluate).length = 1 ∧
    script_entry argv srcTrain srcTest image_shape val_losses evaluate
      = script_entry argv2 srcTrain srcTest image_shape val_losses evaluate ∧
    script_hp = HyperParams.mk 100 20 [100, 100] :=
  ⟨rfl, rfl, rfl, rfl⟩

end Simple
